import Mathlib

/-!
Verification of `sign.ts` (automatic SketchUp extension signing) against its
natural-language specification.

The TypeScript program is shallowly embedded: each function of `src/sign.ts`
(`getCredentials`, `zip`, `search`, `sign`, `main`) becomes a pure Lean
function over explicit inputs standing for the outside world (filesystem
checks, dotenv contents, prompt answers, whether each awaited UI element
appeared, whether the final download succeeded).  `process.exit(c)` is
modelled as an exit code recorded in the result; `console.*` output is
modelled as an ordered list of diagnostic strings.  Node's `path` library
functions used by the program (`dirname`, `basename` with an extension
argument, `parse(..).name`, `join`) are modelled from Node's documented
POSIX behaviour.
-/

namespace EWSign

/-! ## Model of Node's POSIX `path` functions -/

namespace NodePath

/-- Scan of `path.posix.dirname`: walking indices `len-1, …, 1`, skip the
trailing run of slashes, then return the index of the next `/` (the slash
that separates the dirname from the basename), if any. -/
def dirnameGo (cs : Array Char) : Nat → Bool → Option Nat
  | 0, _ => none
  | i+1, matchedSlash =>
    if cs[i+1]? = some '/' then
      if matchedSlash then dirnameGo cs i matchedSlash else some (i+1)
    else dirnameGo cs i false

/-- Node `path.posix.dirname`. -/
def dirname (p : String) : String :=
  if p = "" then "."
  else
    let cs := p.data.toArray
    let hasRoot := cs[0]? = some '/'
    match dirnameGo cs (cs.size - 1) true with
    | none => if hasRoot then "/" else "."
    | some e => if hasRoot && e = 1 then "//" else String.mk (p.data.take e)

/-- Characters of `p` with the trailing run of `/` removed. -/
def stripTrailingSlashes (cs : List Char) : List Char :=
  (cs.reverse.dropWhile (fun c => c = '/')).reverse

/-- The final path component (Node `path.posix.basename` without an
extension argument): the part after the last `/`, ignoring trailing
slashes. -/
def lastComponent (p : String) : String :=
  let cs := stripTrailingSlashes p.data
  if cs.isEmpty then (if p.data.head? = some '/' then "/" else "")
  else String.mk ((cs.reverse.takeWhile (fun c => c ≠ '/')).reverse)

/-- Node `path.posix.basename(p, ext)`: the final component, with the
suffix `ext` removed when it is a proper suffix of that component. -/
def basenameExt (p ext : String) : String :=
  let base := lastComponent p
  if base ≠ ext ∧ ext.data.isSuffixOf base.data then
    String.mk (base.data.take (base.data.length - ext.data.length))
  else base

/-- Index of the last `.` in a list of characters. -/
def lastDotIndex (cs : List Char) : Option Nat :=
  match cs.reverse.findIdx? (fun c => c = '.') with
  | none => none
  | some j => some (cs.length - 1 - j)

/-- Node `path.posix.parse(p).name`: the final component with its extension
removed; a dot at the start of the component (dotfile) does not begin an
extension. -/
def parseName (p : String) : String :=
  let base := lastComponent p
  match lastDotIndex base.data with
  | none => base
  | some 0 => base
  | some i => String.mk (base.data.take i)

/-- Resolution of `.` and `..` segments by Node `path.posix.normalize`. -/
def normSegs (isAbs : Bool) : List String → List String → List String
  | [], acc => acc.reverse
  | s :: rest, acc =>
    if s = "" ∨ s = "." then normSegs isAbs rest acc
    else if s = ".." then
      match acc with
      | [] => normSegs isAbs rest (if isAbs then [] else [".."])
      | t :: tl => if t = ".." then normSegs isAbs rest (".." :: t :: tl)
                   else normSegs isAbs rest tl
    else normSegs isAbs rest (s :: acc)

/-- Split a character list on `/`, keeping empty segments. -/
def splitSlash : List Char → List (List Char)
  | [] => [[]]
  | c :: rest =>
    let r := splitSlash rest
    if c = '/' then [] :: r
    else
      match r with
      | [] => [[c]]
      | g :: gs => (c :: g) :: gs

/-- Node `path.posix.normalize`. -/
def normalize (p : String) : String :=
  if p = "" then "."
  else
    let isAbs := p.data.head? = some '/'
    let trailing := (p.data.reverse.head? = some '/')
    let segs := normSegs isAbs ((splitSlash p.data).map String.mk) []
    let body := String.intercalate "/" segs
    let core := if isAbs then "/" ++ body else body
    let core := if core = "" then (if isAbs then "/" else ".") else core
    if trailing ∧ core ≠ "/" ∧ ¬ (core.data.reverse.head? = some '/') then
      core ++ "/"
    else core

/-- Node `path.posix.join` restricted to two arguments, as used by the
program. -/
def join (a b : String) : String :=
  let parts := [a, b].filter (fun s => s ≠ "")
  if parts.isEmpty then "." else normalize (String.intercalate "/" parts)

end NodePath

-- Sanity checks of the path model on the program's concrete shapes.
example : NodePath.dirname "widget_not_signed.rbz" = "." := by decide
example : NodePath.dirname "out/ext.rbz" = "out" := by decide
example : NodePath.dirname "/out/ext.rbz" = "/out" := by decide
example : NodePath.basenameExt "widget_not_signed.rbz" "_not_signed.rbz" = "widget" := by decide
example : NodePath.basenameExt "out/ext_not_signed.rbz" "_not_signed.rbz" = "ext" := by decide
example : NodePath.parseName "o.rbz" = "o" := by decide
example : NodePath.parseName "out/ext.rbz" = "ext" := by decide
example : NodePath.join "." "widget_signed.rbz" = "widget_signed.rbz" := by decide
example : NodePath.join "out" "ext_signed.rbz" = "out/ext_signed.rbz" := by decide

/-! ## The `search` UI locator (`src/sign.ts`, lines 167–180)

`search(targetName, page, selector)` logs `Searching <name>...`, then awaits
`page.waitFor(selector, {visible: true})` once (no retry).  If the element
appears it is returned; if the wait rejects (the element never became
visible within the page's default timeout), the `catch` block logs
`cannot find <name>: <e>` and calls `process.exit(1)`.

The embedding takes the nondeterministic outcome of the wait as input:
`found = true` means the element appeared; `e` is the display string of the
driver's timeout error (which is what carries the timeout value).  The
result records the diagnostics emitted and whether `process.exit(1)`
occurred. -/

structure SearchResult where
  logs : List String
  exitCode : Option Nat
  deriving DecidableEq

def search (targetName : String) («found» : Bool) (e : String) : SearchResult :=
  let pre := [s!"Searching {targetName}..."]
  if «found» then { logs := pre, exitCode := none }
  else { logs := pre ++ [s!"cannot find {targetName}: {e}"], exitCode := some 1 }

/-! ## The submission state machine (`sign`, `src/sign.ts` lines 182–249)

The spec's states (§4.2): `Idle → Authenticating → Initiating → Uploading →
AwaitingProcessing → Downloading → Complete`, with `Failed` reachable from
any non-terminal state.  The code has no explicit state variable; each spec
state corresponds to a region of the straight-line `async` body:

* `Idle`: `puppeteer.launch` / `newPage` / `goto(..., networkidle0)`;
* `Authenticating`: the sign-in button, e-mail, password and sign-button
  searches (the sign-button click is the "begin submission" affordance);
* `Initiating`: the fixed 10 s settle wait and the browse-button /
  file-chooser step;
* `Uploading`: the two modal `next` buttons;
* `AwaitingProcessing`: the download-link search;
* `Downloading`: reading the link's `href` and fetching it (a fetch failure
  is caught and logged, so `Downloading` cannot fail the run);
* `Complete`: after `browser.close()`.

A failed `search` calls `process.exit(1)`, which we record as entering the
spec's `Failed` terminal state with exit code 1; once the exit code is set,
no further effect occurs (the process is gone). -/

inductive State where
  | Idle | Authenticating | Initiating | Uploading
  | AwaitingProcessing | Downloading | Complete | Failed
  deriving DecidableEq, BEq

/-- Outcomes of the awaited browser interactions: one flag per `search`
call (`true` = the element became visible in time) and one for the final
`download` call (`true` = the result bytes were retrieved). -/
structure StepOutcomes where
  signin : Bool
  email : Bool
  password : Bool
  signBtn : Bool
  browse : Bool
  next1 : Bool
  next2 : Bool
  dlLink : Bool
  fetchOk : Bool
  deriving DecidableEq

/-- Observable trace of one run of `sign`: the spec states visited in
order, the console diagnostics, the strings typed into page inputs (the
credentials go here and nowhere else), how many times `browser.close()`
ran, and the `process.exit` code if the process exited mid-run. -/
structure Run where
  states : List State
  logs : List String
  typed : List (Option String)
  browserClosed : Nat
  exitCode : Option Nat
  deriving DecidableEq

/-- Enter a spec state (no-op if the process already exited). -/
def enter : Run → State → Run
  | ⟨st, lg, ty, bc, none⟩, s => ⟨st ++ [s], lg, ty, bc, none⟩
  | ⟨st, lg, ty, bc, some c⟩, _ => ⟨st, lg, ty, bc, some c⟩

/-- Append diagnostics (no-op if the process already exited). -/
def addLogs : Run → List String → Run
  | ⟨st, lg, ty, bc, none⟩, l => ⟨st, lg ++ l, ty, bc, none⟩
  | ⟨st, lg, ty, bc, some c⟩, _ => ⟨st, lg, ty, bc, some c⟩

/-- `element.type(text)`: the text reaches the page, not the logs. -/
def doType : Run → Option String → Run
  | ⟨st, lg, ty, bc, none⟩, v => ⟨st, lg, ty ++ [v], bc, none⟩
  | ⟨st, lg, ty, bc, some c⟩, _ => ⟨st, lg, ty, bc, some c⟩

/-- One `search` call inside `sign`: on timeout the process exits with
code 1, which ends the run in the spec's `Failed` state. -/
def doSearch : Run → String → Bool → String → Run
  | ⟨st, lg, ty, bc, none⟩, label, fnd, e =>
    (match search label fnd e with
     | ⟨slogs, none⟩ => ⟨st, lg ++ slogs, ty, bc, none⟩
     | ⟨slogs, some c⟩ => ⟨st ++ [State.Failed], lg ++ slogs, ty, bc, some c⟩)
  | ⟨st, lg, ty, bc, some c⟩, _, _, _ => ⟨st, lg, ty, bc, some c⟩

/-- `await browser.close()` (no-op if the process already exited). -/
def closeBrowser : Run → Run
  | ⟨st, lg, ty, bc, none⟩ => ⟨st, lg, ty, bc + 1, none⟩
  | ⟨st, lg, ty, bc, some c⟩ => ⟨st, lg, ty, bc, some c⟩

/-- Destination of the downloaded artifact (`src/sign.ts` line 233):
`path.join(path.dirname(rbzPath),
           path.basename(rbzPath, '_not_signed.rbz') + '_signed.rbz')`. -/
def outputName (rbzPath : String) : String :=
  NodePath.join (NodePath.dirname rbzPath)
    (NodePath.basenameExt rbzPath "_not_signed.rbz" ++ "_signed.rbz")

/-- The signing flow (`src/sign.ts` lines 182–249).  `downloadUrl` is the
`href` the page reports for the download link; `e` is the driver's timeout
error text. -/
def sign (rbzPath : String) (username password : Option String)
    (downloadUrl e : String) (o : StepOutcomes) : Run :=
  let r : Run := { states := [State.Idle],
                   logs := ["Starting the signing process..."],
                   typed := [], browserClosed := 0, exitCode := none }
  -- page.goto(portal, networkidle0): Idle → Authenticating
  let r := enter r State.Authenticating
  -- sign in
  let r := doSearch r "sign in button" o.signin e
  let r := doSearch r "e-mail input" o.email e
  let r := doType r username
  let r := doSearch r "password input" o.password e
  let r := doType r password
  -- upload: the sign button is the "begin submission" affordance
  let r := doSearch r "sign button" o.signBtn e
  let r := enter r State.Initiating
  -- page.waitFor(10000): fixed settle delay, then the file chooser
  let r := doSearch r "browse button" o.browse e
  let r := enter r State.Uploading
  let r := doSearch r "next button 1" o.next1 e
  let r := doSearch r "next button 2" o.next2 e
  let r := enter r State.AwaitingProcessing
  -- download
  let r := doSearch r "download link" o.dlLink e
  let r := enter r State.Downloading
  let r := addLogs r [s!"Downloading {downloadUrl}..."]
  let outputPath := outputName rbzPath
  let r := addLogs r ((if o.fetchOk then [] else ["Download failed!"])
                      ++ [s!"Downloaded to \"{outputPath}\""])
  let r := closeBrowser r
  enter r State.Complete

/-- The spec's intermediate states in their §4.2 order. -/
def canonicalStates : List State :=
  [State.Idle, State.Authenticating, State.Initiating, State.Uploading,
   State.AwaitingProcessing, State.Downloading]

/-- The outcome with every element found and the fetch succeeding. -/
def allOk : StepOutcomes :=
  { signin := true, email := true, password := true, signBtn := true,
    browse := true, next1 := true, next2 := true, dlLink := true,
    fetchOk := true }

-- Sanity: a fully successful run visits all states and closes the browser.
example :
    (sign "a_not_signed.rbz" (some "u") (some "p") "url" "err" allOk).states
      = canonicalStates ++ [State.Complete] := by rfl
example :
    (sign "a_not_signed.rbz" (some "u") (some "p") "url" "err"
      { allOk with signin := false }).states
      = [State.Idle, State.Authenticating, State.Failed] := by rfl

/-! ## Credential resolution (`getCredentials`, `src/sign.ts` lines 55–110)

Inputs of the embedding:

* `argvUsername`, `argvPassword`: the `--username` / `--password` flags
  (yargs default `''`; JavaScript's `!s` is true exactly for `''` here);
* `argvEnv`: the `--env` option, `none` when absent, `some path` when
  present (`some ""` for a bare `--env`, which the code maps to `.env`);
* `env`: the outcome of `dotenv.config`: whether loading failed, and the
  resulting `process.env.EW_USERNAME` / `EW_PASSWORD` values (`""` models
  an unset or empty — falsy — variable);
* `promptU`, `promptP`: what `prompts` would answer for each field
  (`none` models a cancelled prompt, whose property access yields
  `undefined`).

The result records the returned pair (or the `process.exit(1)`) together
with how many times each interactive prompt was invoked. -/

structure EnvOutcome where
  loadError : Bool
  ewUsername : String
  ewPassword : String
  deriving DecidableEq

inductive CredResult where
  | exit (code : Nat) (msg : String)
  | ok (username password : Option String)
  deriving DecidableEq

structure CredTrace where
  result : CredResult
  promptsUsername : Nat
  promptsPassword : Nat
  deriving DecidableEq

def getCredentials (argvUsername argvPassword : String) (argvEnv : Option String)
    (env : EnvOutcome) (promptU promptP : Option String) : CredTrace :=
  -- defaults from the CLI flags
  let username := argvUsername
  let password := argvPassword
  -- the --env branch
  match argvEnv with
  | some _ =>
    if env.loadError then
      { result := .exit 1 "Specified --env option but cannot load .env",
        promptsUsername := 0, promptsPassword := 0 }
    else if env.ewUsername = "" then
      { result := .exit 1 "Specified --env option but the EW_USERNAME variable is missing",
        promptsUsername := 0, promptsPassword := 0 }
    else if env.ewPassword = "" then
      { result := .exit 1 "Specified --env option but the EW_PASSWORD variable is missing",
        promptsUsername := 0, promptsPassword := 0 }
    else
      -- both env values are non-empty, so the prompt conditions are false
      { result := .ok (some env.ewUsername) (some env.ewPassword),
        promptsUsername := 0, promptsPassword := 0 }
  | none =>
    -- prompt for whichever field is still falsy
    let u := if username = "" then promptU else some username
    let p := if password = "" then promptP else some password
    { result := .ok u p,
      promptsUsername := if username = "" then 1 else 0,
      promptsPassword := if password = "" then 1 else 0 }

/-! ## Archiving (`zip`, `src/sign.ts` lines 118–160)

`zip(output)` first checks `argv.path`; if it does not exist or is not a
directory it logs and calls `process.exit(0)`.  Otherwise it derives

  rbzPath = `${path.join(path.dirname(output), path.parse(output).name)}_not_signed.rbz`

and archives into it.  `main` passes `argv.output as string` for `output`;
when `--output` was not given this value is `undefined`, and
`path.dirname(undefined)` throws a `TypeError` — modelled as an error
result, since a total embedding must give the partial derivation a value.
The archiver callbacks and stream plumbing have no bearing on the claims
and are elided. -/

inductive ZipResult where
  | exit (code : Nat) (msg : String)
  | err (msg : String)
  | ok (rbzPath : String) (msg : String)
  deriving DecidableEq

/-- `rbzPath` derivation of `zip` (line 149), defined for a present
output path. -/
def rbzPathFor (output : String) : String :=
  NodePath.join (NodePath.dirname output) (NodePath.parseName output)
    ++ "_not_signed.rbz"

def zip (argvPath : String) (pathExists pathIsDir : Bool)
    (output : Option String) : ZipResult :=
  if !pathExists || !pathIsDir then
    .exit 0 s!"The target path \"{argvPath}\" is not a directory"
  else
    match output with
    | none =>
      -- path.dirname(undefined): TypeError, the promise rejects
      .err "TypeError: the path argument must be of type string"
    | some out =>
      let rbzPath := rbzPathFor out
      .ok rbzPath s!"The extension has been archived in \"{rbzPath}\""

/-- Whether `zip` returned an archive path (reached its `return`). -/
def ZipResult.isOk : ZipResult → Bool
  | .ok _ _ => true
  | _ => false

/-! ## `main` (`src/sign.ts` lines 253–276)

`main` optionally creates the output directory (irrelevant to the claims),
then awaits `getCredentials()`, `zip(output)` and
`sign(rbzPath, username, password)` in that order.  A `process.exit`
inside a helper ends the process there; the `TypeError` thrown by `zip`
rejects the promise chain, so `sign` is never entered either. -/

inductive MainOutcome where
  | preCoreExit (code : Nat)
  | zipError (msg : String)
  | ran (r : Run)
  deriving DecidableEq

def main (argvPath : String) (argvUsername argvPassword : String)
    (argvEnv : Option String) (env : EnvOutcome)
    (promptU promptP : Option String) (output : Option String)
    (pathExists pathIsDir : Bool) (downloadUrl e : String)
    (o : StepOutcomes) : MainOutcome :=
  match (getCredentials argvUsername argvPassword argvEnv env promptU promptP).result with
  | .exit c _ => .preCoreExit c
  | .ok uo po =>
    match zip argvPath pathExists pathIsDir output with
    | .exit c _ => .preCoreExit c
    | .err m => .zipError m
    | .ok rbz _ => .ran (sign rbz uo po downloadUrl e o)

-- Sanity checks.
example :
    getCredentials "a" "b" (some "") ⟨false, "x", "y"⟩ none none
      = ⟨.ok (some "x") (some "y"), 0, 0⟩ := by rfl
example :
    zip "missing" false false (some "o.rbz")
      = .exit 0 "The target path \"missing\" is not a directory" := by rfl
example : rbzPathFor "o.rbz" = "o_not_signed.rbz" := by decide

/-! ## Auxiliary notions for the state-machine claims -/

/-- Position of each state in the spec's §4.2 order (the two terminal
states share the top position; a run contains at most one of them). -/
def stateIdx : State → Nat
  | .Idle => 0
  | .Authenticating => 1
  | .Initiating => 2
  | .Uploading => 3
  | .AwaitingProcessing => 4
  | .Downloading => 5
  | .Complete => 6
  | .Failed => 6

/-- Successive visited states always move strictly forward in the §4.2
order (hence no repeats and no backward transitions). -/
def strictlyForward : List State → Bool
  | [] => true
  | [_] => true
  | a :: b :: rest => decide (stateIdx a < stateIdx b) && strictlyForward (b :: rest)

/-- Number of occurrences of a state in a trace. -/
def countState (s : State) (l : List State) : Nat :=
  (l.filter (fun x => x = s)).length

set_option maxHeartbeats 1600000 in
/-- Exhaustive shape of a `sign` run: either every element was found and
the run is the full canonical trace ending in `Complete` with the browser
closed once and no process exit, or some `search` timed out and the trace
is a canonical prefix (of length 2–5) ending in `Failed`, with exit code 1
and the browser never closed. -/
lemma sign_run_shape (a : String) (u p : Option String) (d e : String)
    (o : StepOutcomes) :
    ((sign a u p d e o).states = canonicalStates ++ [State.Complete] ∧
      (sign a u p d e o).exitCode = none ∧
      (sign a u p d e o).browserClosed = 1) ∨
    ((sign a u p d e o).states = canonicalStates.take 2 ++ [State.Failed] ∧
      (sign a u p d e o).exitCode = some 1 ∧
      (sign a u p d e o).browserClosed = 0) ∨
    ((sign a u p d e o).states = canonicalStates.take 3 ++ [State.Failed] ∧
      (sign a u p d e o).exitCode = some 1 ∧
      (sign a u p d e o).browserClosed = 0) ∨
    ((sign a u p d e o).states = canonicalStates.take 4 ++ [State.Failed] ∧
      (sign a u p d e o).exitCode = some 1 ∧
      (sign a u p d e o).browserClosed = 0) ∨
    ((sign a u p d e o).states = canonicalStates.take 5 ++ [State.Failed] ∧
      (sign a u p d e o).exitCode = some 1 ∧
      (sign a u p d e o).browserClosed = 0) := by
  obtain ⟨s1, s2, s3, s4, s5, s6, s7, s8, f⟩ := o
  cases s1 with
  | false => exact Or.inr (Or.inl ⟨rfl, rfl, rfl⟩)
  | true =>
  cases s2 with
  | false => exact Or.inr (Or.inl ⟨rfl, rfl, rfl⟩)
  | true =>
  cases s3 with
  | false => exact Or.inr (Or.inl ⟨rfl, rfl, rfl⟩)
  | true =>
  cases s4 with
  | false => exact Or.inr (Or.inl ⟨rfl, rfl, rfl⟩)
  | true =>
  cases s5 with
  | false => exact Or.inr (Or.inr (Or.inl ⟨rfl, rfl, rfl⟩))
  | true =>
  cases s6 with
  | false => exact Or.inr (Or.inr (Or.inr (Or.inl ⟨rfl, rfl, rfl⟩)))
  | true =>
  cases s7 with
  | false => exact Or.inr (Or.inr (Or.inr (Or.inl ⟨rfl, rfl, rfl⟩)))
  | true =>
  cases s8 with
  | false => exact Or.inr (Or.inr (Or.inr (Or.inr ⟨rfl, rfl, rfl⟩)))
  | true => exact Or.inl ⟨rfl, rfl, rfl⟩

/-! ## Claim theorems -/

/-- C3 (confirmed).  For every run of the signing flow, the visited states
are exactly a prefix of the §4.2 order `Idle, Authenticating, Initiating,
Uploading, AwaitingProcessing, Downloading` followed by a single terminal
state: the full six states followed by `Complete` on success, or a prefix
followed by `Failed` when a step timed out.  Consecutive states always move
strictly forward in the order (so no state is repeated and there is no
backward transition), and the trace contains exactly one of
`Complete`/`Failed`, at its end. -/
theorem sign_state_machine_order (a : String) (u p : Option String)
    (d e : String) (o : StepOutcomes) :
    ((sign a u p d e o).states = canonicalStates ++ [State.Complete] ∨
      ∃ k, 2 ≤ k ∧ k ≤ 5 ∧
        (sign a u p d e o).states = canonicalStates.take k ++ [State.Failed]) ∧
    strictlyForward (sign a u p d e o).states = true ∧
    countState State.Complete (sign a u p d e o).states
      + countState State.Failed (sign a u p d e o).states = 1 := by
  rcases sign_run_shape a u p d e o with
    ⟨h, -, -⟩ | ⟨h, -, -⟩ | ⟨h, -, -⟩ | ⟨h, -, -⟩ | ⟨h, -, -⟩ <;> rw [h]
  · exact ⟨Or.inl rfl, by decide, by decide⟩
  · exact ⟨Or.inr ⟨2, by decide, by decide, rfl⟩, by decide, by decide⟩
  · exact ⟨Or.inr ⟨3, by decide, by decide, rfl⟩, by decide, by decide⟩
  · exact ⟨Or.inr ⟨4, by decide, by decide, rfl⟩, by decide, by decide⟩
  · exact ⟨Or.inr ⟨5, by decide, by decide, rfl⟩, by decide, by decide⟩

/-- C1 (corrected), counterexample.  A `LocatorTimeout` at the first
authentication step ends the process with exit code 1 and the browser
session closed zero times — not once, as the claim requires for every
run.  (`search` calls `process.exit(1)` directly; `browser.close()` at
line 246 of `src/sign.ts` is only reached on the success path.) -/
theorem sessionClose_locatorTimeout_counterexample :
    (sign "widget_not_signed.rbz" (some "user") (some "pass") "https://dl"
        "TimeoutError" { allOk with signin := false }).browserClosed = 0 ∧
    (sign "widget_not_signed.rbz" (some "user") (some "pass") "https://dl"
        "TimeoutError" { allOk with signin := false }).exitCode = some 1 :=
  ⟨rfl, rfl⟩

/-- C1 (corrected), amended claim.  The session is closed exactly once on
every run that terminates in `Complete` (no mid-run `process.exit`),
including runs whose final fetch failed; on a `LocatorTimeout` in any
state the process exits with code 1 and the session is closed zero
times. -/
theorem sessionClose_iff_complete (a : String) (u p : Option String)
    (d e : String) (o : StepOutcomes) :
    ((sign a u p d e o).exitCode = none ∧
      (sign a u p d e o).browserClosed = 1) ∨
    ((sign a u p d e o).exitCode = some 1 ∧
      (sign a u p d e o).browserClosed = 0) := by
  rcases sign_run_shape a u p d e o with
    ⟨-, h1, h2⟩ | ⟨-, h1, h2⟩ | ⟨-, h1, h2⟩ | ⟨-, h1, h2⟩ | ⟨-, h1, h2⟩
  · exact Or.inl ⟨h1, h2⟩
  all_goals exact Or.inr ⟨h1, h2⟩

/-- C4 (confirmed).  When every element is found but the final fetch
fails, the run still reaches `Complete`, the failure is reported as the
non-fatal diagnostic `Download failed!` (the program's only warning-style
report at this step), the browser is still closed exactly once, and there
is no process-level exit.  The diagnostics are listed in full. -/
theorem fetchFailed_still_completes (a : String) (u p : Option String)
    (d e : String) :
    (sign a u p d e { allOk with fetchOk := false }).states
        = canonicalStates ++ [State.Complete] ∧
    (sign a u p d e { allOk with fetchOk := false }).logs
      = ["Starting the signing process...",
         "Searching sign in button...", "Searching e-mail input...",
         "Searching password input...", "Searching sign button...",
         "Searching browse button...", "Searching next button 1...",
         "Searching next button 2...", "Searching download link...",
         s!"Downloading {d}...", "Download failed!",
         s!"Downloaded to \"{outputName a}\""] ∧
    (sign a u p d e { allOk with fetchOk := false }).browserClosed = 1 ∧
    (sign a u p d e { allOk with fetchOk := false }).exitCode = none :=
  ⟨rfl, rfl, rfl, rfl⟩

/-- C8 (confirmed).  Noninterference of the credentials with the
diagnostics: two runs of the signing flow that differ only in the username
and password produce identical log output (and identical states and exit
behaviour).  The credentials flow only into the page inputs (the `typed`
field), never into any `console.*` line. -/
theorem logs_independent_of_credentials (a : String)
    (u1 p1 u2 p2 : Option String) (d e : String) (o : StepOutcomes) :
    (sign a u1 p1 d e o).logs = (sign a u2 p2 d e o).logs ∧
    (sign a u1 p1 d e o).states = (sign a u2 p2 d e o).states ∧
    (sign a u1 p1 d e o).exitCode = (sign a u2 p2 d e o).exitCode := by
  obtain ⟨s1, s2, s3, s4, s5, s6, s7, s8, f⟩ := o
  cases s1 <;> cases s2 <;> cases s3 <;> cases s4 <;> cases s5 <;> cases s6 <;>
    cases s7 <;> cases s8 <;> exact ⟨rfl, rfl, rfl⟩

/-- C2 (corrected), counterexample.  With `--username flagUser --password
flagPass --env` and a loadable env file defining `EW_USERNAME=envUser`,
`EW_PASSWORD=envPass`, `getCredentials` returns the environment values:
the environment file overrides the explicit flags, the opposite of the
claimed precedence. -/
theorem credential_precedence_counterexample :
    getCredentials "flagUser" "flagPass" (some "") ⟨false, "envUser", "envPass"⟩
        none none
      = ⟨CredResult.ok (some "envUser") (some "envPass"), 0, 0⟩ ∧
    (some "envUser" : Option String) ≠ some "flagUser" :=
  ⟨rfl, by decide⟩

/-- C2 (corrected), amended claim.  When `--env` is specified and the env
file loads with both variables non-empty, the environment values override
the explicit flags and no prompt runs.  When `--env` is not specified,
explicit flags take priority over prompting, and the interactive prompt is
invoked exactly once for each field whose flag is missing (empty). -/
theorem credential_precedence_amended (au ap ep : String) (env : EnvOutcome)
    (pu pp : Option String) (hl : env.loadError = false)
    (hu : env.ewUsername ≠ "") (hp : env.ewPassword ≠ "") :
    getCredentials au ap (some ep) env pu pp
      = ⟨CredResult.ok (some env.ewUsername) (some env.ewPassword), 0, 0⟩ ∧
    getCredentials au ap none env pu pp
      = ⟨CredResult.ok (if au = "" then pu else some au)
            (if ap = "" then pp else some ap),
          (if au = "" then 1 else 0), (if ap = "" then 1 else 0)⟩ := by
  constructor
  · simp [getCredentials, hl, hu, hp]
  · rfl

/-- Witness for `credential_precedence_amended` at concrete inputs. -/
theorem credential_precedence_amended_witness :
    getCredentials "flagU" "flagP" (some ".env") ⟨false, "envU", "envP"⟩ none none
      = ⟨CredResult.ok (some "envU") (some "envP"), 0, 0⟩ ∧
    getCredentials "flagU" "flagP" none ⟨false, "envU", "envP"⟩ none none
      = ⟨CredResult.ok (if "flagU" = "" then none else some "flagU")
            (if "flagP" = "" then none else some "flagP"),
          (if "flagU" = "" then 1 else 0), (if "flagP" = "" then 1 else 0)⟩ :=
  credential_precedence_amended "flagU" "flagP" ".env" ⟨false, "envU", "envP"⟩
    none none rfl (by decide) (by decide)

/-- Destination actually used for the downloaded artifact when the user
supplies `--output P`: `zip` derives the archive path from `P` (line 149)
and `sign` derives the download destination from that archive path
(line 233). -/
def destinationFor (output : String) : String :=
  outputName (rbzPathFor output)

/-- C5 (corrected), counterexample.  With the custom output path
`out/ext.rbz`, the downloaded artifact is written to `out/ext_signed.rbz`,
not to the exact supplied path. -/
theorem custom_output_path_counterexample :
    destinationFor "out/ext.rbz" = "out/ext_signed.rbz" ∧
    destinationFor "out/ext.rbz" ≠ "out/ext.rbz" :=
  ⟨by decide, by decide⟩

/-- C5 (corrected), amended claim.  The derivation is deterministic and for
archive `widget_not_signed.rbz` yields `widget_signed.rbz`; but a custom
output path `P` is not used verbatim: it only determines the directory and
stem — the archive is written to `dirname(P)/stem(P)_not_signed.rbz` and
the downloaded artifact to `dirname(P)/stem(P)_signed.rbz`. -/
theorem output_name_derivation_amended :
    outputName "widget_not_signed.rbz" = "widget_signed.rbz" ∧
    rbzPathFor "out/ext.rbz" = "out/ext_not_signed.rbz" ∧
    destinationFor "out/ext.rbz" = "out/ext_signed.rbz" :=
  ⟨by decide, by decide, by decide⟩

/-- C6 (corrected), counterexample.  When the awaited element never
appears, `search` does not propagate an error to its caller: it calls
`process.exit(1)` itself (recorded in its own result), so the caller never
observes the failure. -/
theorem locator_timeout_propagation_counterexample :
    (search "sign in button" false
        "TimeoutError: waiting for selector failed: timeout 60000ms exceeded"
      ).exitCode = some 1 :=
  rfl

/-- C6 (corrected), amended claim.  `search` emits the diagnostic
`Searching <label>...` before waiting; the wait is attempted exactly once
(no retry); on timeout it logs `cannot find <label>: <e>` — carrying the
step's label and the driver's timeout error text, which is what holds the
timeout value — and terminates the process with exit code 1 from inside
the locator, instead of propagating the error to the caller. -/
theorem locator_timeout_amended (t e : String) (b : Bool) :
    (search t b e).logs.head? = some s!"Searching {t}..." ∧
    (search t true e).exitCode = none ∧
    (search t false e).logs
      = [s!"Searching {t}...", s!"cannot find {t}: {e}"] ∧
    (search t false e).exitCode = some 1 := by
  cases b <;> exact ⟨rfl, rfl, rfl, rfl⟩

/-- C7 (corrected), counterexample.  With a source path that is not a
directory, `zip` logs the error and exits the process with code 0 — the
success code — not code 1; `main` therefore ends pre-core with exit
code 0. -/
theorem invalid_input_exit_code_counterexample :
    zip "missing_dir" false false (some "out.rbz")
      = ZipResult.exit 0 "The target path \"missing_dir\" is not a directory" ∧
    main "missing_dir" "flagU" "flagP" none ⟨false, "", ""⟩ none none
        (some "out.rbz") false false "https://dl" "TimeoutError" allOk
      = MainOutcome.preCoreExit 0 :=
  ⟨rfl, rfl⟩

/-- C7 (corrected), amended claim.  When the source path does not exist or
is not a directory, the process does terminate early, before entering the
core state machine — but with exit code 0, not 1.  (Exit code 1 is used
for the credential-file and locator failures.) -/
theorem invalid_input_early_exit_amended (argvPath au ap : String)
    (argvEnv : Option String) (env : EnvOutcome) (pu pp : Option String)
    (output : Option String) (pe pd : Bool) (d e : String) (o : StepOutcomes)
    (uo po : Option String)
    (hc : (getCredentials au ap argvEnv env pu pp).result
            = CredResult.ok uo po)
    (h : pe = false ∨ pd = false) :
    main argvPath au ap argvEnv env pu pp output pe pd d e o
      = MainOutcome.preCoreExit 0 := by
  unfold main
  rw [hc]
  rcases h with h | h <;> subst h <;> cases output <;> simp [zip]

/-- Witness for `invalid_input_early_exit_amended` at concrete inputs. -/
theorem invalid_input_early_exit_amended_witness :
    main "missing_dir" "flagU" "flagP" none ⟨false, "", ""⟩ none none
        (some "out.rbz") false true "https://dl" "TimeoutError" allOk
      = MainOutcome.preCoreExit 0 :=
  invalid_input_early_exit_amended "missing_dir" "flagU" "flagP" none
    ⟨false, "", ""⟩ none none (some "out.rbz") false true "https://dl"
    "TimeoutError" allOk (some "flagU") (some "flagP") rfl (Or.inl rfl)

/-- C9 (corrected), counterexample.  With no flags, no `--env`, and both
prompts yielding nothing (cancelled), `getCredentials` returns an
unusable pair and `main` proceeds straight into the signing flow with
missing username and password — there is no fatal pre-core termination. -/
theorem credential_missing_proceeds_counterexample :
    main "my_extension" "" "" none ⟨false, "", ""⟩ none none (some "o.rbz")
        true true "https://dl" "TimeoutError" allOk
      = MainOutcome.ran
          (sign "o_not_signed.rbz" none none "https://dl" "TimeoutError" allOk) :=
  rfl

/-- C9 (corrected), amended claim.  The only fatal pre-core terminations
for missing credentials are the `--env` failure cases: when `--env` is
specified and the file cannot be loaded or `EW_USERNAME`/`EW_PASSWORD` is
missing, the process exits with code 1 before the state machine.  When
prompting yields no value, no check catches it and the run enters the
signing flow with missing credentials. -/
theorem env_failure_fatal_amended (argvPath au ap ep : String)
    (env : EnvOutcome) (pu pp : Option String) (output : Option String)
    (pe pd : Bool) (d e : String) (o : StepOutcomes)
    (h : env.loadError = true ∨ env.ewUsername = "" ∨ env.ewPassword = "") :
    main argvPath au ap (some ep) env pu pp output pe pd d e o
      = MainOutcome.preCoreExit 1 := by
  obtain ⟨le, eu, ew⟩ := env
  simp only at h
  rcases h with h | h | h <;> subst h
  · simp [main, getCredentials]
  · cases le <;> simp [main, getCredentials]
  · cases le <;> by_cases heu : eu = "" <;> simp [main, getCredentials, heu]

/-- Witness for `env_failure_fatal_amended` at concrete inputs. -/
theorem env_failure_fatal_amended_witness :
    main "my_extension" "flagU" "flagP" (some ".env") ⟨true, "", ""⟩ none none
        none true true "https://dl" "TimeoutError" allOk
      = MainOutcome.preCoreExit 1 :=
  env_failure_fatal_amended "my_extension" "flagU" "flagP" ".env" ⟨true, "", ""⟩
    none none none true true "https://dl" "TimeoutError" allOk (Or.inl rfl)

/-- C10 (confirmed).  The archive-path derivation of `zip` is only defined
when an output path is supplied: with `--output` absent, `zip` never
returns an archive path — it either exits early on an invalid source path
or hits the `TypeError` from applying `path.dirname`/`path.parse` to
`undefined`.  Hence every successful run presupposes a provided output
path. -/
theorem zip_requires_output_path (argvPath : String) (pe pd : Bool) :
    (zip argvPath pe pd none).isOk = false ∧
    zip argvPath true true none
      = ZipResult.err "TypeError: the path argument must be of type string" := by
  refine ⟨?_, rfl⟩
  cases pe <;> cases pd <;> rfl

end EWSign
